import Mathlib

/-!
# Verification of the sage-mcp model-selection and conversation-memory core

Shallow embedding of the repository's Python core:

* `src/utils/memory.py`   — conversation store (`ConversationMemory`)
* `src/utils/models.py`   — `ModelRestrictionService.is_model_allowed`, `select_best_model`
* `src/models/manager.py` — `ModelManager.select_model_for_task`, `_score_model`,
  `_determine_complexity`, `_generate_selection_reasoning`
* `src/tools/sage.py`     — `SageTool.execute` and its helper methods

Conventions of the embedding:

* Python strings are Lean `String`; `str.lower()` / `str.strip()` /
  `str.startswith` are modelled with ASCII-scope helpers defined on the
  underlying character list (the repository's model names and patterns are
  ASCII, so this agrees with Python's Unicode-aware versions on all inputs
  the claims touch).
* Python dicts keyed by strings are association lists in insertion order;
  dict assignment is insert-or-overwrite (`setPairs`).
* Machine floats appear only as the literals 0.1/0.5/0.7 in arithmetic whose
  operands are small integers; selection scores (all multiples of 0.5, exact
  in the source's floats) are modelled as exact integer counts of
  half-points, and the comparisons `tokens < context_limit * 0.1` /
  `int(max_tokens * 0.7)` as their exact integer counterparts; no claim
  depends on a float-rounding boundary.
* Effects (clock, uuid, provider dispatch, filesystem) are explicit
  parameters threaded through the functions that the Python code performs
  them in.
-/

/-! ## Python-style string primitives (ASCII scope) -/

/-- `str.lower()` on an ASCII character: map `A`-`Z` to `a`-`z`. -/
def charLower (c : Char) : Char :=
  if 65 ≤ c.toNat ∧ c.toNat ≤ 90 then Char.ofNat (c.toNat + 32) else c

/-- `str.lower()` (ASCII scope). -/
def strLower (s : String) : String :=
  ⟨s.data.map charLower⟩

/-- Whitespace recognised by `str.strip()` (ASCII scope: `\t\n\v\f\r` and space). -/
def isSpaceChar (c : Char) : Bool :=
  c.toNat == 32 || (9 ≤ c.toNat && c.toNat ≤ 13)

/-- `str.strip()` on the underlying character list. -/
def trimChars (l : List Char) : List Char :=
  ((l.dropWhile isSpaceChar).reverse.dropWhile isSpaceChar).reverse

/-- `str.strip()` (ASCII scope). -/
def strTrim (s : String) : String :=
  ⟨trimChars s.data⟩

/-- `s.startswith(p)`. -/
def strStartsWith (s p : String) : Bool :=
  p.data.isPrefixOf s.data

/-- Python lexicographic `<` on strings (by code point). -/
def pyStrLt : List Char → List Char → Bool
  | [], [] => false
  | [], _ :: _ => true
  | _ :: _, [] => false
  | a :: as', b :: bs' =>
    if a.toNat < b.toNat then true
    else if b.toNat < a.toNat then false
    else pyStrLt as' bs'

/-- Python `a >= b` on strings: `¬ (a < b)` lexicographically by code point.
This is the comparison the CPython runtime performs for
`complexity >= model_complexity.get("min", "low")` in
`ModelManager._score_model`. -/
def pyStrGe (a b : String) : Bool :=
  !(pyStrLt a.data b.data)

/-- Python `sorted` on a list of strings (insertion sort, code-point order;
`sorted` is stable and total order on the inputs used). -/
def insertStrAsc (x : String) : List String → List String
  | [] => [x]
  | y :: ys => if pyStrLt y.data x.data then y :: insertStrAsc x ys else x :: y :: ys

/-- Python `sorted(list_of_strings)`. -/
def pySortedStr : List String → List String
  | [] => []
  | x :: xs => insertStrAsc x (pySortedStr xs)

/-! ## Python dict as association list (insertion order) -/

/-- `d.get(k)` on a string-keyed dict. -/
def lookupPairs {α : Type} : List (String × α) → String → Option α
  | [], _ => none
  | (k', v) :: rest, k => if k' = k then some v else lookupPairs rest k

/-- `d[k] = v`: overwrite in place if the key exists, else append. -/
def setPairs {α : Type} : List (String × α) → String → α → List (String × α)
  | [], k, v => [(k, v)]
  | (k', v') :: rest, k, v =>
    if k' = k then (k, v) :: rest else (k', v') :: setPairs rest k v

theorem lookupPairs_setPairs_self {α : Type} (l : List (String × α)) (k : String) (v : α) :
    lookupPairs (setPairs l k v) k = some v := by
  induction l with
  | nil => simp [setPairs, lookupPairs]
  | cons p rest ih =>
    by_cases h : p.1 = k
    · simp [setPairs, lookupPairs, h]
    · simp [setPairs, lookupPairs, h, ih]

theorem lookupPairs_setPairs_other {α : Type} (l : List (String × α)) (k k' : String) (v : α)
    (h : k' ≠ k) : lookupPairs (setPairs l k v) k' = lookupPairs l k' := by
  induction l with
  | nil => simp [setPairs, lookupPairs, Ne.symm h]
  | cons p rest ih =>
    by_cases hp : p.1 = k
    · subst hp
      simp [setPairs, lookupPairs, Ne.symm h]
    · simp [setPairs, lookupPairs, hp, ih]

theorem lookupPairs_mem {α : Type} (l : List (String × α)) (k : String) (v : α)
    (h : lookupPairs l k = some v) : (k, v) ∈ l := by
  induction l with
  | nil => simp [lookupPairs] at h
  | cons p rest ih =>
    obtain ⟨pk, pv⟩ := p
    simp only [lookupPairs] at h
    by_cases hp : pk = k
    · rw [if_pos hp] at h
      injection h with h
      subst h; subst hp
      exact List.mem_cons_self _ _
    · rw [if_neg hp] at h
      exact List.mem_cons_of_mem _ (ih h)

/-! ## `src/utils/memory.py` — conversation store -/

/-- `ConversationTurn` dataclass. -/
structure ConversationTurn where
  role : String
  content : String
  timestamp : String
  files : List String
  tool_name : Option String := none
  model_name : Option String := none
  mode : Option String := none
deriving Repr, DecidableEq

/-- Snapshot of the raw triggering request stored in a thread
(`initial_request: Dict[str, Any]` in the source; its contents are opaque to
the store, modelled as string key/value pairs). -/
abbrev ReqSnapshot := List (String × String)

/-- `ConversationThread` dataclass. -/
structure ConversationThread where
  thread_id : String
  tool_name : String
  mode : String
  created_at : String
  last_updated : String
  turns : List ConversationTurn
  initial_request : ReqSnapshot
deriving Repr, DecidableEq

/-- `ConversationMemory`: in-memory store, a dict from thread id to thread. -/
structure ConversationMemory where
  threads : List (String × ConversationThread)
deriving Repr, DecidableEq

/-- The store a fresh `ConversationMemory()` starts with. -/
def memEmpty : ConversationMemory := ⟨[]⟩

namespace ConversationMemory

/-- `ConversationMemory.create_thread`.  The uuid `thread_id` and the clock
reading `now` are effect results passed in explicitly. -/
def create_thread (m : ConversationMemory) (tool_name : String) (mode : String)
    (initial_request : Option ReqSnapshot) (thread_id : String) (now : String) :
    ConversationMemory :=
  let thread : ConversationThread :=
    { thread_id := thread_id
      tool_name := tool_name
      mode := mode
      created_at := now
      last_updated := now
      turns := []
      initial_request := initial_request.getD [] }
  ⟨setPairs m.threads thread_id thread⟩

/-- `ConversationMemory.get_thread`: a copy of the thread's data, or `none`.
The Python method returns a plain dict with the same fields; the snapshot here
is the (immutable) `ConversationThread` value itself. -/
def get_thread (m : ConversationMemory) (thread_id : String) : Option ConversationThread :=
  lookupPairs m.threads thread_id

/-- `ConversationMemory.add_turn`.  Returns the Python `bool` result together
with the store after the call; `now` is the `datetime.now(...)` reading taken
for the new turn. -/
def add_turn (m : ConversationMemory) (thread_id role content : String)
    (files : Option (List String)) (tool_name model_name mode : Option String)
    (now : String) : Bool × ConversationMemory :=
  match lookupPairs m.threads thread_id with
  | none => (false, m)
  | some thread =>
    let turn : ConversationTurn :=
      { role := role
        content := content
        timestamp := now
        files := files.getD []
        tool_name := tool_name
        model_name := model_name
        mode := mode }
    (true, ⟨setPairs m.threads thread_id
      { thread with turns := thread.turns ++ [turn], last_updated := now }⟩)

end ConversationMemory

/-! ## Operation sequences on the conversation store (for the isolation and
ordering invariants) -/

/-- One call to the store: `create_thread` or `add_turn`, with its effect
inputs (ids, clock readings) made explicit. -/
inductive MemOp where
  | create (thread_id tool_name mode : String) (initial_request : Option ReqSnapshot)
      (now : String)
  | turn (thread_id role content : String) (files : Option (List String))
      (tool_name model_name mode : Option String) (now : String)
deriving Repr, DecidableEq

/-- The thread id an operation addresses. -/
def MemOp.threadId : MemOp → String
  | .create tid _ _ _ _ => tid
  | .turn tid _ _ _ _ _ _ _ => tid

/-- Apply one store call, discarding `add_turn`'s boolean result. -/
def MemOp.apply (m : ConversationMemory) : MemOp → ConversationMemory
  | .create tid tool mode req now => m.create_thread tool mode req tid now
  | .turn tid role content files tn mn md now =>
    (m.add_turn tid role content files tn mn md now).2

/-- Run a sequence of store calls left to right. -/
def runOps (m : ConversationMemory) (ops : List MemOp) : ConversationMemory :=
  ops.foldl MemOp.apply m

/-- The turn value `add_turn` builds from its arguments and clock reading. -/
def mkTurn (role content : String) (files : Option (List String))
    (tool_name model_name mode : Option String) (now : String) : ConversationTurn :=
  { role := role, content := content, timestamp := now, files := files.getD []
    tool_name := tool_name, model_name := model_name, mode := mode }

/-- Reference model of a single thread's turn list under one operation
addressed to it: `create` resets it to an empty existing thread, a turn
appends exactly when the thread exists. -/
def turnsStep (st : Option (List ConversationTurn)) : MemOp → Option (List ConversationTurn)
  | .create _ _ _ _ _ => some []
  | .turn _ role content files tn mn md now =>
    match st with
    | none => none
    | some l => some (l ++ [mkTurn role content files tn mn md now])

/-- Reference model: the turn list of thread `tid` after a call sequence,
computed from the calls addressed to `tid` alone. -/
def replayTurns (tid : String) (ops : List MemOp) : Option (List ConversationTurn) :=
  (ops.filter (fun op => op.threadId = tid)).foldl turnsStep none

/-- The turn list of thread `tid` visible through `get_thread`. -/
def threadTurns (m : ConversationMemory) (tid : String) : Option (List ConversationTurn) :=
  (m.get_thread tid).map (·.turns)

theorem threadTurns_apply (m : ConversationMemory) (op : MemOp) (tid : String) :
    threadTurns (op.apply m) tid =
      (if op.threadId = tid then turnsStep (threadTurns m tid) op else threadTurns m tid) := by
  cases op with
  | create tid' tool mode req now =>
    by_cases h : tid' = tid
    · subst h
      simp [threadTurns, MemOp.apply, MemOp.threadId, ConversationMemory.create_thread,
        ConversationMemory.get_thread, lookupPairs_setPairs_self, turnsStep]
    · simp [threadTurns, MemOp.apply, MemOp.threadId, ConversationMemory.create_thread,
        ConversationMemory.get_thread, lookupPairs_setPairs_other _ _ _ _ (Ne.symm h), h]
  | turn tid' role content files tn mn md now =>
    by_cases h : tid' = tid
    · subst h
      simp only [MemOp.threadId, if_pos rfl]
      cases hl : lookupPairs m.threads tid' with
      | none =>
        simp [threadTurns, MemOp.apply, ConversationMemory.add_turn,
          ConversationMemory.get_thread, hl, turnsStep]
      | some t =>
        simp [threadTurns, MemOp.apply, ConversationMemory.add_turn,
          ConversationMemory.get_thread, hl, lookupPairs_setPairs_self, turnsStep, mkTurn]
    · cases hl : lookupPairs m.threads tid' with
      | none =>
        simp [threadTurns, MemOp.apply, ConversationMemory.add_turn,
          ConversationMemory.get_thread, hl, MemOp.threadId, h]
      | some t =>
        simp [threadTurns, MemOp.apply, ConversationMemory.add_turn,
          ConversationMemory.get_thread, hl, MemOp.threadId, h,
          lookupPairs_setPairs_other _ _ _ _ (Ne.symm h)]

/-- Folding a guarded step equals folding the unguarded step over the filtered
list. -/
theorem foldl_guard_filter {α β : Type} (p : α → Bool) (f : β → α → β) :
    ∀ (l : List α) (b : β),
      List.foldl (fun b a => if p a then f b a else b) b l = List.foldl f b (l.filter p) := by
  intro l
  induction l with
  | nil => intro b; rfl
  | cons x xs ih =>
    intro b
    by_cases h : p x
    · simp [List.filter, h, ih]
    · simp [List.filter, h, ih]

theorem threadTurns_runOps (ops : List MemOp) (m : ConversationMemory) (tid : String) :
    threadTurns (runOps m ops) tid =
      (ops.filter (fun op => op.threadId = tid)).foldl turnsStep (threadTurns m tid) := by
  rw [← foldl_guard_filter]
  induction ops generalizing m with
  | nil => rfl
  | cons op rest ih =>
    simp only [runOps, List.foldl] at *
    rw [ih, threadTurns_apply]
    by_cases h : op.threadId = tid <;> simp [h]

/-- A sample store holding one thread `"T"`, used to instantiate contracts. -/
def memSampleT : ConversationMemory :=
  ⟨[("T", { thread_id := "T", tool_name := "sage", mode := "chat", created_at := "t0",
            last_updated := "t0", turns := [], initial_request := [] })]⟩

/-- A sample call sequence touching threads `"A"`, `"B"` and a nonexistent
`"C"`. -/
def opsSample : List MemOp :=
  [.create "A" "sage" "chat" none "t0",
   .turn "A" "user" "hi" (some ["a.py"]) (some "sage") none (some "chat") "t1",
   .create "B" "sage" "review" none "t2",
   .turn "B" "user" "yo" none none none none "t3",
   .turn "A" "assistant" "re" none (some "sage") (some "gpt-5") (some "chat") "t4",
   .turn "C" "user" "lost" none none none none "t5"]

/-- **C7** Threads in the conversation store are isolated and append-ordered:
running any sequence of `create_thread`/`add_turn` calls from the empty store,
the turn list `get_thread` reports for a thread id is exactly the replay of
the calls addressed to that id (creations reset to empty, each successful
`add_turn` appends one turn, turns of other ids never appear), in call order;
this holds simultaneously for two distinct ids `A` and `B`. -/
theorem claim_C7_thread_isolation_and_order (ops : List MemOp) (A B : String) (_hAB : A ≠ B) :
    threadTurns (runOps memEmpty ops) A = replayTurns A ops ∧
    threadTurns (runOps memEmpty ops) B = replayTurns B ops := by
  refine ⟨?_, ?_⟩ <;> · rw [threadTurns_runOps]; rfl

/-- Witness for C7 at a concrete call sequence and the distinct ids
`"A"`, `"B"`. -/
theorem claim_C7_witness :
    threadTurns (runOps memEmpty opsSample) "A" = replayTurns "A" opsSample ∧
    threadTurns (runOps memEmpty opsSample) "B" = replayTurns "B" opsSample :=
  claim_C7_thread_isolation_and_order opsSample "A" "B" (by decide)

/-- **C8** Contract of `ConversationMemory.add_turn`: the returned boolean is
true exactly when the thread id is known; on an unknown id the store is left
unchanged (no exception is modelled — the function is total); on a known id
the turn built from the arguments is appended and `last_updated` becomes the
new turn's timestamp `now`; threads under any other id are untouched. -/
theorem claim_C8_add_turn_contract (m : ConversationMemory) (tid role content : String)
    (files : Option (List String)) (tn mn md : Option String) (now : String) :
    (m.add_turn tid role content files tn mn md now).1 = (m.get_thread tid).isSome ∧
    (m.get_thread tid = none → (m.add_turn tid role content files tn mn md now).2 = m) ∧
    ((m.add_turn tid role content files tn mn md now).2.get_thread tid =
      (m.get_thread tid).map (fun t =>
        { t with turns := t.turns ++ [mkTurn role content files tn mn md now],
                 last_updated := now })) ∧
    (∀ other, other ≠ tid →
      (m.add_turn tid role content files tn mn md now).2.get_thread other =
        m.get_thread other) := by
  cases hl : lookupPairs m.threads tid with
  | none =>
    refine ⟨?_, ?_, ?_, ?_⟩
    · simp [ConversationMemory.add_turn, ConversationMemory.get_thread, hl]
    · intro _; simp [ConversationMemory.add_turn, hl]
    · simp [ConversationMemory.add_turn, ConversationMemory.get_thread, hl]
    · intro other _; simp [ConversationMemory.add_turn, hl]
  | some t =>
    refine ⟨?_, ?_, ?_, ?_⟩
    · simp [ConversationMemory.add_turn, ConversationMemory.get_thread, hl]
    · intro hnone
      simp [ConversationMemory.get_thread, hl] at hnone
    · simp [ConversationMemory.add_turn, ConversationMemory.get_thread, hl,
        lookupPairs_setPairs_self, mkTurn]
    · intro other hother
      simp [ConversationMemory.add_turn, ConversationMemory.get_thread, hl,
        lookupPairs_setPairs_other _ _ _ _ hother]

/-- Witness for C8: an `add_turn` on an unknown id leaves the empty store
unchanged, and an `add_turn` on `"T"` leaves the unrelated id `"U"`
untouched. -/
theorem claim_C8_witness :
    (memEmpty.add_turn "T" "user" "hi" none none none none "t1").2 = memEmpty ∧
    (memSampleT.add_turn "T" "user" "hi" none none none none "t1").2.get_thread "U" =
      memSampleT.get_thread "U" :=
  ⟨(claim_C8_add_turn_contract memEmpty "T" "user" "hi" none none none none "t1").2.1 rfl,
   (claim_C8_add_turn_contract memSampleT "T" "user" "hi" none none none none "t1").2.2.2 "U"
     (by decide)⟩

/-! ## `src/utils/models.py` — `ModelRestrictionService` -/

/-- Python regex `\w` (ASCII scope): letters, digits, underscore. -/
def isWordChar (c : Char) : Bool :=
  c.isAlphanum || c == '_'

/-- Word-status of a position just outside/at a character (`none` = before the
start or past the end of the string, which counts as non-word). -/
def wordStatus : Option Char → Bool
  | some c => isWordChar c
  | none => false

/-- A `\b` boundary holds between two (possibly absent) adjacent characters
iff exactly one side is a word character. -/
def boundaryAt (a b : Option Char) : Bool :=
  wordStatus a != wordStatus b

/-- The escaped pattern `p` matches at the current position of `s` (whose
preceding character is `prev`) with `\b` on both sides. -/
def matchHere (p : List Char) (prev : Option Char) (s : List Char) : Bool :=
  p.isPrefixOf s && boundaryAt prev p.head? && boundaryAt p.getLast? (s.drop p.length).head?

/-- Scan of `s` for a `\b`-bounded occurrence of `p`, tracking the previous
character. -/
def searchFrom (p : List Char) : Option Char → List Char → Bool
  | prev, s =>
    matchHere p prev s ||
      match s with
      | [] => false
      | c :: rest => searchFrom p (some c) rest

/-- `re.search(r"\b" + re.escape(pattern) + r"\b", s) is not None` for a
literal `pattern`. -/
def reSearchWordBounded (pattern s : String) : Bool :=
  searchFrom pattern.data none s.data

/-- The restriction state a `ModelRestrictionService` instance carries after
`load_restrictions` (provider allow-lists, global block set, disabled
patterns).  The Python block set is a `set`; only membership is used, so a
list models it. -/
structure RestrictionConfig where
  openai_allowed : List String := []
  google_allowed : List String := []
  anthropic_allowed : List String := []
  blocked_models : List String := []
  disabled_patterns : List String := []
deriving Repr, DecidableEq

/-- `[m.lower().strip() for m in entries if m.strip()]` — the normalization
`load_restrictions` applies to every environment-sourced list. -/
def normEntries (entries : List String) : List String :=
  (entries.filter (fun m => !(trimChars m.data).isEmpty)).map (fun m => strTrim (strLower m))

/-- `ModelRestrictionService.load_restrictions` applied to the five raw
environment lists. -/
def load_restrictions (openai google anthropic blocked patterns : List String) :
    RestrictionConfig :=
  { openai_allowed := normEntries openai
    google_allowed := normEntries google
    anthropic_allowed := normEntries anthropic
    blocked_models := normEntries blocked
    disabled_patterns := normEntries patterns }

/-- `model_lower.startswith(("gpt", "o1", "o3", "text-"))` — the OpenAI
family test. -/
def openaiFamily (n : String) : Bool :=
  strStartsWith n "gpt" || strStartsWith n "o1" || strStartsWith n "o3" ||
    strStartsWith n "text-"

/-- `model_lower.startswith("gemini") or model_lower in ["flash", "pro"]` —
the Google family test. -/
def googleFamily (n : String) : Bool :=
  strStartsWith n "gemini" || n == "flash" || n == "pro"

/-- `model_lower.startswith("claude")` — the Anthropic family test. -/
def anthropicFamily (n : String) : Bool :=
  strStartsWith n "claude"

/-- `ModelRestrictionService.is_model_allowed`.  Note: the source lower-cases
the incoming name (`model_lower = model_name.lower()`) but does **not** strip
it. -/
def is_model_allowed (cfg : RestrictionConfig) (model_name : String) : Bool :=
  if cfg.blocked_models.contains (strLower model_name) then false
  else if cfg.disabled_patterns.any
      (fun pattern => reSearchWordBounded pattern (strLower model_name)) then false
  else if openaiFamily (strLower model_name) then
    if !cfg.openai_allowed.isEmpty && !cfg.openai_allowed.contains (strLower model_name) then
      false
    else true
  else if googleFamily (strLower model_name) then
    if !cfg.google_allowed.isEmpty && !cfg.google_allowed.contains (strLower model_name) then
      false
    else true
  else if anthropicFamily (strLower model_name) then
    if !cfg.anthropic_allowed.isEmpty && !cfg.anthropic_allowed.contains (strLower model_name) then
      false
    else true
  else true

/-- The claim's provider clause, on an already-normalized name `n`: the
provider family identified by `n`'s prefix has a non-empty allow-list that
does not contain `n`. -/
def providerRejects (cfg : RestrictionConfig) (n : String) : Bool :=
  if openaiFamily n then !cfg.openai_allowed.isEmpty && !cfg.openai_allowed.contains n
  else if googleFamily n then !cfg.google_allowed.isEmpty && !cfg.google_allowed.contains n
  else if anthropicFamily n then
    !cfg.anthropic_allowed.isEmpty && !cfg.anthropic_allowed.contains n
  else false

/-- The claim's disallow condition with the name lower-cased **and trimmed**
("m (lower-cased, trimmed) is in the global block-set, or matches some
disabled pattern, or its provider-identifying prefix has a non-empty
allow-list that does not contain m"). -/
def claimDisallowedTrimmed (cfg : RestrictionConfig) (m : String) : Bool :=
  cfg.blocked_models.contains (strTrim (strLower m)) ||
    cfg.disabled_patterns.any (fun pattern => reSearchWordBounded pattern (strTrim (strLower m))) ||
    providerRejects cfg (strTrim (strLower m))

/-- The claim's disallow condition with the name lower-cased only — what the
source actually computes on. -/
def claimDisallowedLower (cfg : RestrictionConfig) (m : String) : Bool :=
  cfg.blocked_models.contains (strLower m) ||
    cfg.disabled_patterns.any (fun pattern => reSearchWordBounded pattern (strLower m)) ||
    providerRejects cfg (strLower m)

theorem decide_eq_nil_eq_isEmpty {α : Type} [DecidableEq α] (l : List α) :
    decide (l = []) = l.isEmpty := by
  cases l <;> simp

theorem is_model_allowed_eq_not_claim (cfg : RestrictionConfig) (m : String) :
    is_model_allowed cfg m = !claimDisallowedLower cfg m := by
  unfold is_model_allowed claimDisallowedLower providerRejects
  cases hb : cfg.blocked_models.contains (strLower m) <;>
  cases hp : cfg.disabled_patterns.any
    (fun pattern => reSearchWordBounded pattern (strLower m)) <;>
  cases h1 : openaiFamily (strLower m) <;>
  cases h2 : googleFamily (strLower m) <;>
  cases h3 : anthropicFamily (strLower m) <;>
  simp [hb, hp, h1, h2, h3, decide_eq_nil_eq_isEmpty]

/-- Sample restriction state with only the disabled pattern `"mini"`. -/
def cfgPatternMini : RestrictionConfig := { disabled_patterns := ["mini"] }

/-- Sample restriction state with non-empty allow-lists for every provider
plus a block and a pattern, for the unknown-prefix case. -/
def cfgAllProviders : RestrictionConfig :=
  { openai_allowed := ["gpt-4o"], google_allowed := ["gemini-2.5-pro"],
    anthropic_allowed := ["claude-3"], blocked_models := ["foo"],
    disabled_patterns := ["bar"] }

/-- **C3 (amended)** `is_model_allowed` is false iff the **lower-cased (not
trimmed)** name is in the global block set, or matches a disabled pattern
under word-boundary matching, or its provider family has a non-empty
allow-list not containing it; pattern `"mini"` does not reject
`"gemini-2.5-pro"` but rejects `"gpt-4o-mini"`; a name matching no provider
prefix is allowed despite non-empty allow-lists, unless blocked or
pattern-matched. -/
theorem claim_C3_restriction_characterization :
    (∀ (cfg : RestrictionConfig) (m : String),
      is_model_allowed cfg m = false ↔ claimDisallowedLower cfg m = true) ∧
    is_model_allowed cfgPatternMini "gemini-2.5-pro" = true ∧
    is_model_allowed cfgPatternMini "gpt-4o-mini" = false ∧
    is_model_allowed cfgAllProviders "mystery-model-x" = true := by
  refine ⟨?_, by decide, by decide, by decide⟩
  intro cfg m
  rw [is_model_allowed_eq_not_claim]
  cases claimDisallowedLower cfg m <;> simp

/-- Restriction state blocking exactly `"gpt-4"`. -/
def cfgBlockGpt4 : RestrictionConfig := { blocked_models := ["gpt-4"] }

/-- **C3 counterexample** The claim as stated (name lower-cased **and
trimmed**) fails on the name `"gpt-4 "` with `"gpt-4"` blocked: the trimmed
name is in the block set, so the claim requires `is_model_allowed = false`,
but the source never strips the name and allows it. -/
theorem claim_C3_counterexample :
    ¬ (is_model_allowed cfgBlockGpt4 "gpt-4 " = false ↔
        claimDisallowedTrimmed cfgBlockGpt4 "gpt-4 " = true) := by
  decide

/-! ## `src/utils/models.py` — `select_best_model` -/

/-- Lines 40–125 of `select_best_model`: token estimate, complexity
determination, and the priority chain that sets `selected_model` before the
final restriction verification.  `conversation_context` is the optional
context dict, of which only the length of its `str(...)` serialization is
consumed; it is passed as that serialization. -/
def select_best_model_base (cfg : RestrictionConfig) (mode : String)
    (prompt_size file_count : Nat) (conversation_context : Option String) : String :=
  let estimated_tokens := prompt_size / 4 +
    (match conversation_context with | some s => s.length / 4 | none => 0)
  let complexity : String :=
    if file_count > 5 || estimated_tokens > 50000 then "high"
    else if file_count > 2 || estimated_tokens > 10000 then "medium"
    else if ["think", "analyze", "debug", "review"].contains mode then "medium"
    else if estimated_tokens > 2000 then "low"
    else "minimal"
  -- Priority 1: massive context
  if estimated_tokens > 500000 then "gemini-2.5-pro"
  -- Priority 2: high complexity
  else if complexity == "high" then
    if ["think", "debug", "analyze"].contains mode then
      if is_model_allowed cfg "o3" then "o3" else "gemini-2.5-pro"
    else "gemini-2.5-pro"
  -- Priority 3: medium complexity
  else if complexity == "medium" then
    if ["think", "analyze", "review"].contains mode then "gemini-2.5-pro"
    else if ["plan", "refactor", "test"].contains mode then
      if is_model_allowed cfg "gpt-5" then "gpt-5" else "gemini-2.5-flash"
    else "gemini-2.5-flash"
  -- Priority 4: fast responses for simple tasks
  else
    if mode == "chat" && estimated_tokens < 1000 then "gemini-1.5-flash"
    else "gemini-2.5-flash"

/-- The fixed fallback chain of lines 130. -/
def fallback_chain : List String :=
  ["gemini-2.5-flash", "gemini-1.5-flash", "gemini-1.5-pro"]

/-- `select_best_model`: the base selection followed by the restriction
verification of lines 127–137 — if the selected model is not allowed, the
first allowed fallback replaces it; if no fallback is allowed, the loop
falls through and the original (disallowed) selection is returned. -/
def select_best_model (cfg : RestrictionConfig) (mode : String)
    (prompt_size file_count : Nat) (conversation_context : Option String) : String :=
  let selected := select_best_model_base cfg mode prompt_size file_count conversation_context
  if is_model_allowed cfg selected then selected
  else
    match fallback_chain.find? (fun fallback => is_model_allowed cfg fallback) with
    | some fallback => fallback
    | none => selected

/-- **C1 (amended)** If the winning model fails the restriction check,
`select_best_model` falls through the fixed fallback chain and returns the
first allowed fallback; consequently the returned model satisfies
`is_model_allowed` whenever **some fallback model is allowed** — but when no
fallback model is allowed the original (possibly disallowed) winner is
returned rather than a hard-coded last-resort default, and the function still
does not raise. -/
theorem claim_C1_select_best_model_fallback (cfg : RestrictionConfig) (mode : String)
    (prompt_size file_count : Nat) (ctx : Option String)
    (h : ∃ f ∈ fallback_chain, is_model_allowed cfg f = true) :
    is_model_allowed cfg (select_best_model cfg mode prompt_size file_count ctx) = true ∧
    (is_model_allowed cfg (select_best_model_base cfg mode prompt_size file_count ctx) = false →
      select_best_model cfg mode prompt_size file_count ctx =
        (fallback_chain.find? (fun fallback => is_model_allowed cfg fallback)).getD
          (select_best_model_base cfg mode prompt_size file_count ctx)) := by
  have hfind : (fallback_chain.find? (fun fallback => is_model_allowed cfg fallback)).isSome := by
    rw [List.find?_isSome]
    obtain ⟨f, hf, hall⟩ := h
    exact ⟨f, hf, hall⟩
  constructor
  · unfold select_best_model
    cases hsel : is_model_allowed cfg (select_best_model_base cfg mode prompt_size file_count ctx)
    · cases hfo : fallback_chain.find? (fun fallback => is_model_allowed cfg fallback) with
      | none => rw [hfo] at hfind; simp at hfind
      | some f => simpa [hsel, hfo] using List.find?_some hfo
    · simp [hsel]
  · intro hsel
    unfold select_best_model
    cases hfo : fallback_chain.find? (fun fallback => is_model_allowed cfg fallback) with
    | none => rw [hfo] at hfind; simp at hfind
    | some f => simp [hsel, hfo]

/-- Restriction state blocking the winner and the first fallback but not the
rest of the chain. -/
def cfgPartialBlock : RestrictionConfig :=
  { blocked_models := ["gemini-2.5-pro", "gemini-2.5-flash"] }

/-- Witness for C1: with the winner and first fallback blocked, the returned
model is allowed and is the first allowed fallback. -/
theorem claim_C1_witness :
    is_model_allowed cfgPartialBlock (select_best_model cfgPartialBlock "chat" 2000004 0 none)
        = true ∧
    select_best_model cfgPartialBlock "chat" 2000004 0 none =
      (fallback_chain.find? (fun fallback => is_model_allowed cfgPartialBlock fallback)).getD
        (select_best_model_base cfgPartialBlock "chat" 2000004 0 none) :=
  ⟨(claim_C1_select_best_model_fallback cfgPartialBlock "chat" 2000004 0 none
      ⟨"gemini-1.5-flash", by decide, by decide⟩).1,
   (claim_C1_select_best_model_fallback cfgPartialBlock "chat" 2000004 0 none
      ⟨"gemini-1.5-flash", by decide, by decide⟩).2 (by decide)⟩

/-- Restriction state blocking the winner and the whole fallback chain. -/
def cfgChainBlocked : RestrictionConfig :=
  { blocked_models :=
      ["gemini-2.5-pro", "gemini-2.5-flash", "gemini-1.5-flash", "gemini-1.5-pro"] }

/-- **C1 counterexample** With the winner and every fallback blocked,
`select_best_model` returns the original winner `"gemini-2.5-pro"`, which
fails `is_model_allowed` under the same configuration — refuting both "the
returned model satisfies isAllowed" and "if none is allowed it returns a
hard-coded last-resort default". -/
theorem claim_C1_counterexample :
    select_best_model cfgChainBlocked "chat" 2000004 0 none = "gemini-2.5-pro" ∧
    is_model_allowed cfgChainBlocked (select_best_model cfgChainBlocked "chat" 2000004 0 none)
      = false := by
  decide

/-! ## `src/models/manager.py` — `ModelManager`

The catalog (`self.models`) and selection rules are loaded from
`src/models/config.yaml`, which is not part of the source tree; the functions
are therefore parameterized by an arbitrary catalog/rule set, exactly as the
methods are parameterized by `self.models` / `self.selection_rules`.  A
catalog entry is the per-model dict with the keys `_score_model` and
`_generate_selection_reasoning` read, each field carrying that key's
dict-lookup default. -/

/-- One model's configuration dict, with the defaults the reading code
applies (`modes.preferred`/`modes.suitable` default `[]`, `complexity.optimal`
default `None`, `complexity.min` default `"low"` applied at use site,
`capabilities.context_limit` default `100000`, `selection_priority` default
`5`). -/
structure ModelConfig where
  modes_preferred : List String := []
  modes_suitable : List String := []
  complexity_optimal : Option String := none
  complexity_min : Option String := none
  context_limit : Nat := 100000
  cost : Option String := none
  speed : Option String := none
  selection_priority : Int := 5
deriving Repr, DecidableEq

/-- `selection_rules["complexity_indicators"]` thresholds, with the
dict-lookup defaults of `_determine_complexity`. -/
structure SelectionRules where
  high_file_count : Nat := 5
  high_token_count : Nat := 50000
  medium_file_count : Nat := 2
  medium_token_count : Nat := 10000
deriving Repr, DecidableEq

/-- A model catalog: `self.models` in insertion order. -/
abbrev ModelCatalog := List (String × ModelConfig)

/-- `ModelManager._determine_complexity`. -/
def _determine_complexity (rules : SelectionRules) (mode : String) (tokens files : Nat) :
    String :=
  if files ≥ rules.high_file_count || tokens ≥ rules.high_token_count ||
      ["think", "analyze"].contains mode then "high"
  else if files ≥ rules.medium_file_count || tokens ≥ rules.medium_token_count ||
      ["debug", "review", "plan", "refactor", "test"].contains mode then "medium"
  else "low"

/-- `ModelManager._score_model`.  Every constant the code adds to the float
score is a multiple of 0.5 and the float arithmetic on them is exact, so the
score is modelled exactly as an integer count of **half-points** (the Python
float value is this integer divided by 2); order comparisons between scores
are unchanged by the doubling.  The test `tokens < context_limit * 0.1` is
modelled as the exact comparison `10 * tokens < context_limit` (no claim
touches the float-rounding boundary).  The complexity `elif` uses Python's
**lexicographic string** `>=` (`pyStrGe`), which is what
`complexity >= model_complexity.get("min", "low")` executes. -/
def _score_model (models : ModelCatalog) (model_name mode complexity : String)
    (tokens : Nat) : Int :=
  let config := (lookupPairs models model_name).getD {}
  let s : Int := 0
  -- Mode preference scoring (+3.0 / +1.0)
  let s := if config.modes_preferred.contains mode then s + 6
    else if config.modes_suitable.contains mode then s + 2
    else s
  -- Complexity matching (+2.0 / +1.0)
  let s := if config.complexity_optimal == some complexity then s + 4
    else if pyStrGe complexity (config.complexity_min.getD "low") then s + 2
    else s
  -- Context capacity check (-5.0; -1.0 for very_high cost on tiny context)
  let s := if tokens > config.context_limit then s - 10
    else if 10 * tokens < config.context_limit then
      (if config.cost == some "very_high" then s - 2 else s)
    else s
  -- Selection priority: (10 - priority) * 0.5 points = (10 - priority) half-points
  let s := s + (10 - config.selection_priority)
  -- Speed preference for simple tasks (+1.0)
  let s := if complexity == "low" && config.speed == some "very_fast" then s + 2 else s
  s

/-- `ModelManager._generate_selection_reasoning`. -/
def _generate_selection_reasoning (models : ModelCatalog) (model mode complexity : String)
    (tokens files : Nat) : String :=
  let parts := ["mode=" ++ mode, "complexity=" ++ complexity, "tokens=" ++ toString tokens,
    "files=" ++ toString files]
  let config := (lookupPairs models model).getD {}
  let parts := if config.modes_preferred.contains mode then parts ++ ["preferred for mode"]
    else parts
  let parts := if tokens > 100000 then parts ++ ["large context"] else parts
  "Selected for: " ++ String.intercalate ", " parts

/-- One step of Python's stable descending sort by score
(`sorted(model_scores.items(), key=lambda x: x[1], reverse=True)`): insert an
element (earlier in the original order) before the first position of equal or
smaller score. -/
def insertScoreDesc (x : String × Int) : List (String × Int) → List (String × Int)
  | [] => [x]
  | y :: ys => if x.2 ≥ y.2 then x :: y :: ys else y :: insertScoreDesc x ys

/-- Python's stable descending sort by score. -/
def sortScoresDesc : List (String × Int) → List (String × Int)
  | [] => []
  | x :: xs => insertScoreDesc x (sortScoresDesc xs)

/-- The candidate list of `select_model_for_task` (filter by `allowed_models`
when that argument is truthy — `None` and the empty list coincide under
Python truthiness, both modelled by `[]`). -/
def available_models_for (models : ModelCatalog) (allowed_models : List String) :
    List String :=
  if !allowed_models.isEmpty then
    (models.map (·.1)).filter (fun m => allowed_models.contains m)
  else models.map (·.1)

/-- The token estimate of `select_model_for_task` lines 136–139:
`prompt_size // 4`, plus `len(str(conversation_context)) // 4` when a context
is present (`conversation_context` is passed as the `str(...)` serialization
of the context dict — only its length is read). -/
def estimate_tokens (prompt_size : Nat) (conversation_context : Option String) : Nat :=
  prompt_size / 4 +
    (match conversation_context with | some s => s.length / 4 | none => 0)

/-- `ModelManager.select_model_for_task`. -/
def select_model_for_task (models : ModelCatalog) (rules : SelectionRules) (mode : String)
    (prompt_size file_count : Nat) (conversation_context : Option String)
    (allowed_models : List String) : String × String :=
  let estimated_tokens := estimate_tokens prompt_size conversation_context
  let complexity := _determine_complexity rules mode estimated_tokens file_count
  let available_models := available_models_for models allowed_models
  if available_models.isEmpty then
    ("gemini-1.5-flash", "No allowed models available, using default")
  else
    let model_scores := available_models.map
      (fun name => (name, _score_model models name mode complexity estimated_tokens))
    match sortScoresDesc model_scores with
    | (selected, _) :: _ =>
      (selected,
        _generate_selection_reasoning models selected mode complexity estimated_tokens
          file_count)
    | [] => ("gemini-1.5-flash", "Fallback to default model")

/-! ### C2 — the complexity bonus in `_score_model` -/

/-- The rank of a complexity tier under the spec's order low < medium < high. -/
def tierRank : String → Nat
  | "medium" => 1
  | "high" => 2
  | _ => 0

/-- The claim's condition for the +1.0 complexity bonus: tier ≥ minimum under
low < medium < high. -/
def claimComplexityBonusApplies (tier min : String) : Bool :=
  tierRank min ≤ tierRank tier

/-- Catalog entry whose optimal complexity is `"medium"` with minimum
`"low"`. -/
def probeCatalog : ModelCatalog :=
  [("probe-a", { complexity_optimal := some "medium", complexity_min := some "low" }),
   ("probe-b", { complexity_optimal := some "low", complexity_min := some "high" })]

/-- **C2** Evaluation of `_score_model` at the failing inputs: for tier
`"high"` against minimum `"low"` the claim awards the +1.0 bonus
(`claimComplexityBonusApplies = true`) but the code's Python string
comparison `"high" >= "low"` is lexicographically false, so the score is 2.5
— 5 half-points: 0 mode + 0 complexity + 0 context + 2.5 priority — instead
of the claimed 3.5; for tier `"medium"` against minimum `"high"` the claim
awards no bonus but `"medium" >= "high"` is lexicographically true, so the
score is 3.5 (7 half-points) instead of the claimed 2.5. -/
theorem claim_C2_score_model_complexity_divergence :
    pyStrGe "high" "low" = false ∧
    claimComplexityBonusApplies "high" "low" = true ∧
    _score_model probeCatalog "probe-a" "chat" "high" 50000 = 5 ∧
    pyStrGe "medium" "high" = true ∧
    claimComplexityBonusApplies "medium" "high" = false ∧
    _score_model probeCatalog "probe-b" "chat" "medium" 50000 = 7 := by
  decide

/-! ### C6 — totality of `select_model_for_task` -/

theorem string_data_append (a b : String) : (a ++ b).data = a.data ++ b.data := rfl

theorem reasoning_ne_empty (models : ModelCatalog) (model mode complexity : String)
    (tokens files : Nat) :
    _generate_selection_reasoning models model mode complexity tokens files ≠ "" := by
  unfold _generate_selection_reasoning
  intro h
  have h2 := congrArg String.data h
  rw [string_data_append] at h2
  exact absurd (List.append_eq_nil.mp h2).1 (by decide)

theorem mem_insertScoreDesc {x y : String × Int} {l : List (String × Int)}
    (h : y ∈ insertScoreDesc x l) : y = x ∨ y ∈ l := by
  induction l with
  | nil =>
    simp only [insertScoreDesc, List.mem_singleton] at h
    exact Or.inl h
  | cons z zs ih =>
    unfold insertScoreDesc at h
    by_cases hc : x.2 ≥ z.2
    · rw [if_pos hc] at h
      rcases List.mem_cons.mp h with h | h
      · exact Or.inl h
      · exact Or.inr h
    · rw [if_neg hc] at h
      rcases List.mem_cons.mp h with h | h
      · exact Or.inr (by simp [h])
      · rcases ih h with h' | h'
        · exact Or.inl h'
        · exact Or.inr (List.mem_cons_of_mem _ h')

theorem mem_sortScoresDesc {y : String × Int} {l : List (String × Int)}
    (h : y ∈ sortScoresDesc l) : y ∈ l := by
  induction l with
  | nil => simp [sortScoresDesc] at h
  | cons x xs ih =>
    unfold sortScoresDesc at h
    rcases mem_insertScoreDesc h with h' | h'
    · simp [h']
    · exact List.mem_cons_of_mem _ (ih h')

theorem insertScoreDesc_ne_nil (x : String × Int) (l : List (String × Int)) :
    insertScoreDesc x l ≠ [] := by
  cases l with
  | nil => simp [insertScoreDesc]
  | cons z zs =>
    unfold insertScoreDesc
    by_cases hc : x.2 ≥ z.2 <;> simp [hc]

theorem sortScoresDesc_eq_nil {l : List (String × Int)} (h : sortScoresDesc l = []) :
    l = [] := by
  cases l with
  | nil => rfl
  | cons x xs => exact absurd h (insertScoreDesc_ne_nil _ _)

theorem mem_available_models (models : ModelCatalog) (allowed : List String) (m : String)
    (h : m ∈ available_models_for models allowed) : m ∈ models.map (·.1) := by
  unfold available_models_for at h
  by_cases ha : allowed.isEmpty
  · simpa [ha] using h
  · rw [if_pos (by simp [ha])] at h
    exact (List.mem_filter.mp h).1

/-- The scored-and-sorted stage of `select_model_for_task` always yields a
winner drawn from the catalog when the candidate list is non-empty. -/
theorem select_model_core (models : ModelCatalog) (rules : SelectionRules) (mode : String)
    (est file_count : Nat) (allowed : List String)
    (hav : available_models_for models allowed ≠ []) :
    ∃ sel, sel ∈ models.map (·.1) ∧
      (match sortScoresDesc ((available_models_for models allowed).map
          (fun name => (name, _score_model models name mode
            (_determine_complexity rules mode est file_count) est))) with
        | (selected, _) :: _ => (selected,
            _generate_selection_reasoning models selected mode
              (_determine_complexity rules mode est file_count) est file_count)
        | [] => ("gemini-1.5-flash", "Fallback to default model"))
      = (sel, _generate_selection_reasoning models sel mode
          (_determine_complexity rules mode est file_count) est file_count) := by
  cases hq : sortScoresDesc ((available_models_for models allowed).map
      (fun name => (name, _score_model models name mode
        (_determine_complexity rules mode est file_count) est))) with
  | nil =>
    have h0 := sortScoresDesc_eq_nil hq
    rw [List.map_eq_nil_iff] at h0
    exact absurd h0 hav
  | cons hd tl =>
    obtain ⟨sel, sc⟩ := hd
    have h1 : (sel, sc) ∈ sortScoresDesc ((available_models_for models allowed).map
        (fun name => (name, _score_model models name mode
          (_determine_complexity rules mode est file_count) est))) := by
      rw [hq]; exact List.mem_cons_self _ _
    have h2 := mem_sortScoresDesc h1
    obtain ⟨name, hname_mem, hname_eq⟩ := List.mem_map.mp h2
    have hname : name = sel := ((Prod.mk.injEq _ _ _ _).mp hname_eq).1
    exact ⟨sel, hname ▸ mem_available_models models allowed name hname_mem, rfl⟩

/-- **C6** For any catalog with non-empty model names, any rules, mode,
prompt size, file count, context, and any allowed-model list (the empty list
and `None` coincide under Python truthiness), `select_model_for_task` returns
a non-empty model name and a non-empty reasoning string (a total function —
it never raises), and when the candidate set after filtering is empty it
returns the hard-coded fallback `"gemini-1.5-flash"` with the reasoning
`"No allowed models available, using default"`. -/
theorem claim_C6_selector_total (models : ModelCatalog) (rules : SelectionRules)
    (mode : String) (prompt_size file_count : Nat) (ctx : Option String)
    (allowed : List String) (hnames : ∀ p ∈ models, p.1 ≠ "") :
    (select_model_for_task models rules mode prompt_size file_count ctx allowed).1 ≠ "" ∧
    (select_model_for_task models rules mode prompt_size file_count ctx allowed).2 ≠ "" ∧
    (available_models_for models allowed = [] →
      select_model_for_task models rules mode prompt_size file_count ctx allowed =
        ("gemini-1.5-flash", "No allowed models available, using default")) := by
  by_cases hav : available_models_for models allowed = []
  · refine ⟨?_, ?_, fun _ => ?_⟩ <;> simp [select_model_for_task, hav]
  · have hne : (available_models_for models allowed).isEmpty = false := by
      cases h : available_models_for models allowed with
      | nil => exact absurd h hav
      | cons a l => simp
    obtain ⟨sel, hmem, heq⟩ := select_model_core models rules mode
      (estimate_tokens prompt_size ctx) file_count allowed hav
    have hres : select_model_for_task models rules mode prompt_size file_count ctx allowed =
        (sel, _generate_selection_reasoning models sel mode
          (_determine_complexity rules mode (estimate_tokens prompt_size ctx) file_count)
          (estimate_tokens prompt_size ctx) file_count) := by
      simp only [select_model_for_task, hne, Bool.false_eq_true, if_false]
      exact heq
    refine ⟨?_, ?_, fun h => absurd h hav⟩
    · rw [hres]
      obtain ⟨p, hp, hp1⟩ := List.mem_map.mp hmem
      exact hp1 ▸ hnames p hp
    · rw [hres]
      exact reasoning_ne_empty _ _ _ _ _ _

/-- Sample one-model catalog for instantiating C6. -/
def catalogSample : ModelCatalog := [("model-x", {})]

/-- Witness for C6 at a concrete catalog, with an allowed list that filters
everything out (empty candidate set) — exercising the hard-coded fallback —
and discharging the non-empty-names hypothesis. -/
theorem claim_C6_witness :
    (select_model_for_task catalogSample {} "chat" 40 0 none ["other"]).1 ≠ "" ∧
    (select_model_for_task catalogSample {} "chat" 40 0 none ["other"]).2 ≠ "" ∧
    (available_models_for catalogSample ["other"] = [] →
      select_model_for_task catalogSample {} "chat" 40 0 none ["other"] =
        ("gemini-1.5-flash", "No allowed models available, using default")) :=
  claim_C6_selector_total catalogSample {} "chat" 40 0 none ["other"] (by decide)

/-! ## `src/tools/sage.py` — `SageTool` -/

/-- The pydantic `SageRequest` (its field defaults included).  `temperature`
is only threaded through to the provider call, as an exact rational. -/
structure SageRequest where
  mode : String := "chat"
  prompt : String
  files : Option (List String) := none
  model : Option String := none
  temperature : Option ℚ := none
  thinking_mode : Option String := none
  continuation_id : Option String := none
  file_handling_mode : Option String := some "embedded"
  use_websearch : Option Bool := some true
  output_file : Option String := none

/-- `bool(s)` for an optional string: false for `None` and `""`. -/
def optTruthy : Option String → Bool
  | some s => !s.data.isEmpty
  | none => false

/-- `bool(s)` for a string. -/
def strEmpty (s : String) : Bool :=
  s.data.isEmpty

/-- The `model_corrections` dict of `_validate_request` (December 2025
table); `none` marks the blocked outdated-training-data names. -/
def model_corrections : List (String × Option String) :=
  [("gemini 3 pro", some "gemini-3-pro-preview"),
   ("gemini-3 pro", some "gemini-3-pro-preview"),
   ("gemini3pro", some "gemini-3-pro-preview"),
   ("gemini-3-pro", some "gemini-3-pro-preview"),
   ("gemini 3 flash", some "gemini-3-flash-preview"),
   ("gemini-3 flash", some "gemini-3-flash-preview"),
   ("gemini3flash", some "gemini-3-flash-preview"),
   ("gemini-3-flash", some "gemini-3-flash-preview"),
   ("gemini 2.5 pro", some "gemini-2.5-pro"),
   ("gemini-2.5 pro", some "gemini-2.5-pro"),
   ("gemini 2.5 flash", some "gemini-2.5-flash"),
   ("gpt5", some "gpt-5.2"),
   ("gpt 5", some "gpt-5.2"),
   ("gpt-5", some "gpt-5.2"),
   ("gpt5.2", some "gpt-5.2"),
   ("gpt 5.2", some "gpt-5.2"),
   ("claude opus 4.5", some "claude-opus-4.5"),
   ("claude-opus-4-5", some "claude-opus-4.5"),
   ("claude sonnet 4.5", some "claude-sonnet-4.5"),
   ("claude-sonnet-4-5", some "claude-sonnet-4.5"),
   ("claude opus 4.1", some "claude-opus-4.5"),
   ("claude-opus-4.1", some "claude-opus-4.5"),
   ("claude sonnet 4", some "claude-sonnet-4.5"),
   ("claude-sonnet-4", some "claude-sonnet-4.5"),
   ("deepseek v3", some "deepseek-chat"),
   ("deepseek-v3", some "deepseek-chat"),
   ("deepseek v3.2", some "deepseek-chat"),
   ("gemini-2.0-flash-exp", none),
   ("gemini-2.0-flash-thinking-exp", none),
   ("gemini-exp-1206", none),
   ("gemini-exp-1121", none)]

/-- The model-name normalization of `_validate_request` lines 327–343:
lower-case and strip, look the result up in the correction table; a `none`
value means the name is rejected outright, a `some` value replaces the name,
a missing key leaves the original argument unchanged. -/
def normalize_model_name (m : String) : Option String :=
  match lookupPairs model_corrections (strTrim (strLower m)) with
  | some none => none
  | some (some corrected) => some corrected
  | none => some m

/-- Every corrected name the table produces is itself a fixed point of the
normalization (checked by evaluation over the whole table). -/
theorem corrections_values_fixed :
    model_corrections.all
      (fun p => match p.2 with
        | some corrected => normalize_model_name corrected == some corrected
        | none => true) = true := by
  decide

/-- **C10** The correction-table normalization is idempotent: whenever the
normalization accepts `s` (possibly correcting it to `t`), running it again
on `t` returns `t` unchanged — every canonical name the table produces is a
fixed point absent from the table's keys, so an already-corrected name passes
unchanged. -/
theorem claim_C10_normalization_idempotent (s t : String)
    (h : normalize_model_name s = some t) : normalize_model_name t = some t := by
  unfold normalize_model_name at h
  cases hl : lookupPairs model_corrections (strTrim (strLower s)) with
  | none =>
    rw [hl] at h
    injection h with h
    subst h
    unfold normalize_model_name
    rw [hl]
  | some o =>
    cases o with
    | none => rw [hl] at h; simp at h
    | some corrected =>
      rw [hl] at h
      injection h with h
      subst h
      have hmem := lookupPairs_mem _ _ _ hl
      have hfix := List.all_eq_true.mp corrections_values_fixed _ hmem
      simpa using hfix

/-- Witness for C10: `"GPT-5"` normalizes to `"gpt-5.2"`, and the theorem
yields that `"gpt-5.2"` re-normalizes to itself. -/
theorem claim_C10_witness : normalize_model_name "gpt-5.2" = some "gpt-5.2" :=
  claim_C10_normalization_idempotent "GPT-5" "gpt-5.2" (by decide)

/-- The assembled `full_context` handed to the mode handler together with the
provider — the input of the external dispatch capability. -/
structure DispatchContext where
  prompt : String
  files : List (String × String)
  conversation : Option ConversationThread
  mode : String
  model : String
  temperature : ℚ
  thinking_mode : Option String
  use_websearch : Option Bool
  file_handling_mode : Option String
  embedded_files : List String
  new_files : List String

/-- The external collaborators and effect inputs of one `SageTool.execute`
call: restriction state, the provider model listing, the security validator,
filesystem expansion/reading, mode-handler and provider lookup, the dispatch
capability (`handler.handle`), output writing, configuration, and the uuid /
clock readings consumed on the success path. -/
structure SageEnv where
  restrictions : RestrictionConfig
  all_models : List String
  validate_paths : List String → Bool × String
  expand_paths : List String → List String
  read_files : List String → Option String → Nat → List (String × String)
  has_mode_handler : String → Bool
  has_provider : String → Bool
  dispatch : DispatchContext → Except String String
  write_output : String → String → Except String String
  default_model : String
  catalog : ModelCatalog
  rules : SelectionRules
  fresh_thread_id : String
  now_created : String
  now_user : String
  now_assistant : String

/-- `SageTool._get_available_models`: the provider listing filtered by the
restriction service. -/
def _get_available_models (env : SageEnv) : List String :=
  env.all_models.filter (fun m => is_model_allowed env.restrictions m)

/-- `", ".join(sorted(available))`. -/
def availEnumeration (available : List String) : String :=
  String.intercalate ", " (pySortedStr available)

/-- The rejection message for outdated-training-data model names
(`_validate_request` lines 334–339). -/
def trainingDataErrorMsg (original_model : String) (available : List String) : String :=
  "❌ Model '" ++ original_model ++
    "' is from outdated training data and not available.\n\n✅ Available models you MUST use: " ++
    availEnumeration available ++
    "\n\n⚠️ For Gemini 2.5 Pro, use: 'gemini-2.5-pro'\n⚠️ For Gemini 2.5 Flash, use: 'gemini-2.5-flash'"

/-- The rejection message for a model that fails the restriction check
(`_validate_request` lines 352–358). -/
def notRecognizedErrorMsg (model : String) (available : List String) : String :=
  "Model '" ++ model ++
    "' is not recognized or available. \n\n✅ Available models you MUST use: " ++
    availEnumeration available ++
    "\n\n⚠️ IMPORTANT: Use ONLY the exact model names listed above.\n❌ DO NOT use models from your training data like 'gemini-2.0-flash-exp'.\n\nFor Gemini 2.5 Pro, use: 'gemini-2.5-pro' (with hyphens, not 'gemini 2.5 pro')"

/-- The missing-provider message (`_select_model_and_provider` lines
431–437). -/
def noProviderErrorMsg (model_name : String) (available : List String) : String :=
  "No provider available for model '" ++ model_name ++
    "'. \n\n✅ Available models you MUST use: " ++ availEnumeration available ++
    "\n\n⚠️ Use ONLY these exact model names. DO NOT use models from your training data.\nCheck API keys are set and use exact model names."

/-- The file-security step of `_validate_request` (lines 361–365). -/
def validate_request_files (env : SageEnv) (request : SageRequest) :
    Except String SageRequest :=
  match request.files with
  | some fs =>
    if !fs.isEmpty then
      if !(env.validate_paths fs).1 then
        .error ("Invalid file paths: " ++ (env.validate_paths fs).2)
      else .ok request
    else .ok request
  | none => .ok request

/-- `SageTool._validate_request`: the correction-table pre-processing (via
`normalize_model_name`; when the table has no entry the argument is kept
verbatim, which coincides with re-storing the looked-up original), then the
restriction check on the (possibly corrected) model, then path security.
Raised `ValueError`s are the `Except.error` messages. -/
def _validate_request (env : SageEnv) (args : SageRequest) : Except String SageRequest :=
  match
    (match args.model with
     | some original_model =>
       if !strEmpty original_model then
         match normalize_model_name original_model with
         | none => .error (trainingDataErrorMsg original_model (_get_available_models env))
         | some corrected => .ok { args with model := some corrected }
       else .ok args
     | none => .ok args : Except String SageRequest) with
  | .error e => .error e
  | .ok request =>
    match request.model with
    | some m =>
      if !strEmpty m && !is_model_allowed env.restrictions m then
        .error (notRecognizedErrorMsg m (_get_available_models env))
      else validate_request_files env request
    | none => validate_request_files env request

/-- **C9** `_validate_request` rejects with an error every model name in the
fixed deny-list of deprecated/training-data names (the error enumerating the
currently valid names), and rejects with an error any explicitly given
(uncorrected) model that fails the restriction check, enumerating the allowed
models — in both cases the result is an `Except.error`, never an `.ok`
carrying a silently substituted model. -/
theorem claim_C9_validate_rejects (env : SageEnv) (args : SageRequest) (m : String)
    (hm : args.model = some m) (hne : strEmpty m = false)
    (h : lookupPairs model_corrections (strTrim (strLower m)) = some none ∨
      (lookupPairs model_corrections (strTrim (strLower m)) = none ∧
        is_model_allowed env.restrictions m = false)) :
    _validate_request env args =
      .error (trainingDataErrorMsg m (_get_available_models env)) ∨
    _validate_request env args =
      .error (notRecognizedErrorMsg m (_get_available_models env)) := by
  rcases h with h | ⟨h, hall⟩
  · left
    unfold _validate_request normalize_model_name
    rw [hm]
    simp [hne, h]
  · right
    unfold _validate_request normalize_model_name
    rw [hm]
    simp [hne, h, hall]

/-- `Config.TEMPERATURES` (src/config.py), as exact rationals. -/
def TEMPERATURES : List (String × ℚ) :=
  [("chat", 7/10), ("analyze", 3/10), ("review", 3/10), ("debug", 2/10),
   ("plan", 5/10), ("test", 4/10), ("refactor", 4/10), ("think", 8/10)]

/-- `Config.MAX_TOKENS` (src/config.py). -/
def MAX_TOKENS : List (String × Nat) :=
  [("gemini-2.0-flash-exp", 1000000), ("gemini-2.0-flash-thinking-exp", 32768),
   ("gemini-1.5-pro", 2000000), ("gemini-1.5-flash", 1000000), ("gpt-4o", 128000),
   ("gpt-4o-mini", 128000), ("o1", 200000), ("o1-mini", 128000), ("o3-mini", 200000),
   ("claude-3.5-sonnet", 200000), ("default", 100000)]

/-- `SageTool._get_token_budget`: `int(max_tokens * 0.7)`, modelled as the
exact `max_tokens * 7 / 10` (the float product of these table values by 0.7
truncates to the same integers). -/
def _get_token_budget (model_name : String) : Nat :=
  ((lookupPairs MAX_TOKENS model_name).getD
    ((lookupPairs MAX_TOKENS "default").getD 0)) * 7 / 10

/-- First-occurrence deduplication; models Python's `list(set(files))`, whose
element order is unspecified — callers only consume membership. -/
def dedupFirstAux : List String → List String → List String
  | _, [] => []
  | seen, x :: xs =>
    if seen.contains x then dedupFirstAux seen xs
    else x :: dedupFirstAux (x :: seen) xs

/-- `list(set(files))` (first-occurrence order). -/
def dedupFirst (l : List String) : List String :=
  dedupFirstAux [] l

/-- `SageTool._get_conversation_files`: all file paths over the thread's
turns, deduplicated (an absent/empty `files` entry contributes nothing). -/
def _get_conversation_files (conversation_context : ConversationThread) : List String :=
  dedupFirst (conversation_context.turns.foldl (fun acc turn => acc ++ turn.files) [])

/-- `SageTool._prepare_conversation_context`: fetch the thread for a truthy
continuation id; an unknown id degrades to a fresh context. -/
def _prepare_conversation_context (mem : ConversationMemory)
    (continuation_id : Option String) : Option ConversationThread × List String :=
  match continuation_id with
  | some cid =>
    if !strEmpty cid then
      match mem.get_thread cid with
      | some conversation_context =>
        (some conversation_context, _get_conversation_files conversation_context)
      | none => (none, [])
    else (none, [])
  | none => (none, [])

/-- `SageTool._process_files`: expand directories, subtract files already in
the conversation history, read only the new files. -/
def _process_files (env : SageEnv) (files : Option (List String))
    (embedded_files : List String) (file_handling_mode : Option String)
    (model : String) : List (String × String) × List String :=
  match files with
  | some fs =>
    if !fs.isEmpty then
      let expanded_files := env.expand_paths fs
      let new_files :=
        if !embedded_files.isEmpty then
          expanded_files.filter (fun f => !embedded_files.contains f)
        else expanded_files
      let file_contents :=
        if !new_files.isEmpty then
          env.read_files new_files file_handling_mode (_get_token_budget model)
        else []
      (file_contents, new_files)
    else ([], [])
  | none => ([], [])

/-- `request.model or self.config.DEFAULT_MODEL`. -/
def modelOrDefault (request : SageRequest) (default_model : String) : String :=
  match request.model with
  | some m => if !strEmpty m then m else default_model
  | none => default_model

/-- `str(conversation_context)`: the serialization of the context dict.  Only
its length reaches the selector; the Repr rendering stands in for Python's
`str(dict)` text. -/
def serializeThread (t : ConversationThread) : String :=
  reprStr t

/-- `SageTool._select_model_and_provider`: resolve `"auto"`/empty through
`select_model_for_task` constrained to the currently available models, then
require a provider for the resolved name. -/
def _select_model_and_provider (env : SageEnv) (request : SageRequest)
    (conversation_context : Option ConversationThread) (new_files : List String) :
    Except String String :=
  let model_name := modelOrDefault request env.default_model
  let model_name :=
    if model_name == "auto" || strEmpty model_name then
      (select_model_for_task env.catalog env.rules request.mode request.prompt.length
        new_files.length (conversation_context.map serializeThread)
        (_get_available_models env)).1
    else model_name
  if env.has_provider model_name then .ok model_name
  else .error (noProviderErrorMsg model_name (_get_available_models env))

/-- `SageTool._format_response`. -/
def _format_response (result thread_id : String) : String :=
  result ++
    "\n\n---\n💬 **Continue this conversation**: Use `continuation_id: \"" ++ thread_id ++
    "\"` in your next SAGE call to maintain context and avoid re-reading files."

/-- `SageTool._update_conversation_memory`: a user turn carrying
`request.files or []`, then an assistant turn carrying the response and the
resolved model name. -/
def _update_conversation_memory (mem : ConversationMemory) (thread_id : String)
    (request : SageRequest) (result model_name : String)
    (now_user now_assistant : String) : ConversationMemory :=
  let mem1 := (mem.add_turn thread_id "user" request.prompt
    (some (request.files.getD [])) (some "sage") (some model_name) (some request.mode)
    now_user).2
  (mem1.add_turn thread_id "assistant" result none (some "sage") (some model_name)
    (some request.mode) now_assistant).2

/-- `json.dumps` string escaping restricted to the characters the error
messages contain (quote, backslash, newline; `ensure_ascii` `\uXXXX`
escaping of non-ASCII elided). -/
def jsonEscapeChar (c : Char) : String :=
  if c = '"' then "\\\""
  else if c = '\\' then "\\\\"
  else if c = '\n' then "\\n"
  else String.singleton c

/-- `json.dumps` escaping over a string. -/
def jsonEscape (s : String) : String :=
  String.join (s.data.map jsonEscapeChar)

/-- The catch-all error response of `execute`:
`json.dumps(\x7b"error": f"SAGE execution failed: \x7bstr(e)\x7d"\x7d)`. -/
def formatError (e : String) : String :=
  "\x7b\"error\": \"" ++ jsonEscape ("SAGE execution failed: " ++ e) ++ "\"\x7d"

/-- The raw `arguments` dict stored as a thread's `initial_request`; the
store treats it opaquely, so only an audit stub of the fields is kept. -/
def argsSnapshot (args : SageRequest) : ReqSnapshot :=
  [("mode", args.mode), ("prompt", args.prompt)]

/-- `SageTool.execute`: validation, context resolution, file deduplication,
model/provider resolution, dispatch, then (only after a successful dispatch)
thread creation for substantial responses and turn recording, response
formatting and optional output writing.  Every exception short-circuits to
the `formatError` response with the store as it stood. -/
def SageTool.execute (env : SageEnv) (mem : ConversationMemory) (args : SageRequest) :
    String × ConversationMemory :=
  match _validate_request env args with
  | .error e => (formatError e, mem)
  | .ok request =>
    let pc := _prepare_conversation_context mem request.continuation_id
    let pf := _process_files env request.files pc.2 request.file_handling_mode
      (modelOrDefault request env.default_model)
    match _select_model_and_provider env request pc.1 pf.2 with
    | .error e => (formatError e, mem)
    | .ok model_name =>
      if !env.has_mode_handler request.mode then
        (formatError ("Unknown mode: " ++ request.mode), mem)
      else
        match env.dispatch
          { prompt := request.prompt, files := pf.1, conversation := pc.1,
            mode := request.mode, model := model_name,
            temperature :=
              (match request.temperature with
               | some t => if t == 0 then (lookupPairs TEMPERATURES request.mode).getD (1/2)
                 else t
               | none => (lookupPairs TEMPERATURES request.mode).getD (1/2)),
            thinking_mode := request.thinking_mode,
            use_websearch := request.use_websearch,
            file_handling_mode := request.file_handling_mode,
            embedded_files := pc.2, new_files := pf.2 } with
        | .error e => (formatError e, mem)
        | .ok result =>
          let created := !optTruthy request.continuation_id && decide (result.length > 100)
          let thread_id := if created then some env.fresh_thread_id
            else request.continuation_id
          let mem1 := if created then
              mem.create_thread "sage" request.mode (some (argsSnapshot args))
                env.fresh_thread_id env.now_created
            else mem
          let mem2 := if optTruthy thread_id then
              _update_conversation_memory mem1 (thread_id.getD "") request result model_name
                env.now_user env.now_assistant
            else mem1
          let result2 := if optTruthy thread_id && !optTruthy request.continuation_id then
              _format_response result (thread_id.getD "")
            else result
          match request.output_file with
          | some output_file =>
            if !strEmpty output_file then
              match env.write_output output_file result2 with
              | .ok msg => (msg, mem2)
              | .error e => (formatError e, mem2)
            else (result2, mem2)
          | none => (result2, mem2)

/-- A concrete environment: permissive restrictions, identity path expansion,
all handlers/providers present, successful dispatch. -/
def envSample : SageEnv :=
  { restrictions := {}
    all_models := ["gemini-2.5-pro", "gemini-2.5-flash"]
    validate_paths := fun _ => (true, "")
    expand_paths := fun fs => fs
    read_files := fun fs _ _ => fs.map (fun f => (f, "content"))
    has_mode_handler := fun _ => true
    has_provider := fun _ => true
    dispatch := fun _ => .ok "a dispatched response"
    write_output := fun _ msg => .ok msg
    default_model := "auto"
    catalog := []
    rules := {}
    fresh_thread_id := "tid-1"
    now_created := "t0"
    now_user := "t1"
    now_assistant := "t2" }

/-- Witness for C9 at the deny-listed name `"gemini-exp-1206"`. -/
theorem claim_C9_witness :
    _validate_request envSample { prompt := "hi", model := some "gemini-exp-1206" } =
      .error (trainingDataErrorMsg "gemini-exp-1206" (_get_available_models envSample)) ∨
    _validate_request envSample { prompt := "hi", model := some "gemini-exp-1206" } =
      .error (notRecognizedErrorMsg "gemini-exp-1206" (_get_available_models envSample)) :=
  claim_C9_validate_rejects envSample { prompt := "hi", model := some "gemini-exp-1206" }
    "gemini-exp-1206" rfl (by decide) (Or.inl (by decide))

/-- **C5** If the external dispatch capability fails (raises) on every input,
`execute` returns the store exactly as it received it — no thread is created
and no turn is appended anywhere — together with a `formatError` response
rather than an exception (whichever step's error message applies). -/
theorem claim_C5_no_memory_on_failed_dispatch (env : SageEnv) (mem : ConversationMemory)
    (args : SageRequest) (e : String)
    (hdisp : ∀ c, env.dispatch c = Except.error e) :
    ∃ msg, SageTool.execute env mem args = (formatError msg, mem) := by
  rcases hv : _validate_request env args with e1 | request
  · exact ⟨e1, by simp [SageTool.execute, hv]⟩
  · rcases hs : _select_model_and_provider env request
        (_prepare_conversation_context mem request.continuation_id).1
        (_process_files env request.files
          (_prepare_conversation_context mem request.continuation_id).2
          request.file_handling_mode (modelOrDefault request env.default_model)).2
      with e2 | model_name
    · exact ⟨e2, by simp [SageTool.execute, hv, hs]⟩
    · by_cases hh : env.has_mode_handler request.mode
      · exact ⟨e, by simp [SageTool.execute, hv, hs, hh, hdisp]⟩
      · exact ⟨"Unknown mode: " ++ request.mode, by simp [SageTool.execute, hv, hs, hh]⟩

/-- Witness for C5: a concrete environment whose dispatch always fails, a
store holding one thread, a request continuing that thread — the store comes
back unchanged with an error response. -/
theorem claim_C5_witness :
    ∃ msg, SageTool.execute { envSample with dispatch := fun _ => .error "boom" }
      memSampleT { prompt := "hello", continuation_id := some "T" } =
      (formatError msg, memSampleT) :=
  claim_C5_no_memory_on_failed_dispatch { envSample with dispatch := fun _ => .error "boom" }
    memSampleT { prompt := "hello", continuation_id := some "T" } "boom" (fun _ => rfl)

/-- **C4 (amended)** When the orchestrator records a successful request into
an existing conversation thread, the appended user turn carries the **full
requested file list** (`request.files`, or `[]` when absent) — not only the
new files — and the appended assistant turn carries the response text with
the resolved model name; `last_updated` becomes the assistant turn's
timestamp. -/
theorem claim_C4_memory_update_records_request_files (mem : ConversationMemory)
    (tid : String) (request : SageRequest) (result model_name now_u now_a : String)
    (t : ConversationThread) (h : mem.get_thread tid = some t) :
    (_update_conversation_memory mem tid request result model_name now_u now_a).get_thread
        tid =
      some { t with
        turns := t.turns ++
          [mkTurn "user" request.prompt (some (request.files.getD [])) (some "sage")
            (some model_name) (some request.mode) now_u,
           mkTurn "assistant" result none (some "sage") (some model_name)
            (some request.mode) now_a],
        last_updated := now_a } := by
  have h' : lookupPairs mem.threads tid = some t := h
  simp [_update_conversation_memory, ConversationMemory.add_turn,
    ConversationMemory.get_thread, h', lookupPairs_setPairs_self, mkTurn]

/-- Witness for C4's amended statement at a concrete store and request. -/
theorem claim_C4_witness :
    (_update_conversation_memory memSampleT "T"
        { prompt := "next", files := some ["a.py", "b.py"] } "resp" "m" "t1" "t2").get_thread
        "T" =
      some { thread_id := "T", tool_name := "sage", mode := "chat", created_at := "t0",
             last_updated := "t2",
             turns :=
               ([] : List ConversationTurn) ++
                 [mkTurn "user" "next" (some ["a.py", "b.py"]) (some "sage") (some "m")
                   (some "chat") "t1",
                  mkTurn "assistant" "resp" none (some "sage") (some "m") (some "chat") "t2"],
             initial_request := [] } :=
  claim_C4_memory_update_records_request_files memSampleT "T"
    { prompt := "next", files := some ["a.py", "b.py"] } "resp" "m" "t1" "t2"
    { thread_id := "T", tool_name := "sage", mode := "chat", created_at := "t0",
      last_updated := "t0", turns := [], initial_request := [] } rfl

/-- A store holding thread `"T"` whose history already embeds `"a.py"`. -/
def memC4 : ConversationMemory :=
  ⟨[("T", { thread_id := "T", tool_name := "sage", mode := "chat", created_at := "t0",
            last_updated := "t0",
            turns := [{ role := "user", content := "p0", timestamp := "t0",
                        files := ["a.py"] }],
            initial_request := [] })]⟩

/-- The continuing request asking again for `"a.py"` plus the new
`"b.py"`. -/
def reqC4 : SageRequest :=
  { prompt := "next", files := some ["a.py", "b.py"], continuation_id := some "T" }

/-- **C4 counterexample** Continuing a thread that already embeds `"a.py"`
with the request files `["a.py", "b.py"]`, the deduplicated new-files list is
`["b.py"]`, but the user turn the orchestrator records carries the full
requested list `["a.py", "b.py"]` — not "exactly the new files" as the claim
states. -/
theorem claim_C4_counterexample :
    (_process_files envSample reqC4.files
        (_prepare_conversation_context memC4 reqC4.continuation_id).2
        reqC4.file_handling_mode "m").2 = ["b.py"] ∧
    ((_update_conversation_memory memC4 "T" reqC4 "resp" "m" "t1" "t2").get_thread "T").map
        (fun t => t.turns.map (fun turn => turn.files)) =
      some [["a.py"], ["a.py", "b.py"], []] ∧
    (["a.py", "b.py"] : List String) ≠ ["b.py"] := by
  decide
